import Mathlib

/-!
Shallow embedding of the AirAware dashboard core (src/src/App.jsx) and proofs
about its specification claims.

JS numbers are modelled as rationals (exact arithmetic; the float aspects of
the source are not load-bearing for the claims), except in the haversine
distance computation, whose trigonometry is modelled over the reals.
JS `Math.round` is modelled as `fun q => Int.floor (q + 1/2)` (round half
toward positive infinity), matching the ECMAScript definition.
Firestore documents are modelled as records of optional fields; a JS `Date`
is modelled by its epoch time together with its calendar year.
-/

namespace AirAware

/-- Model of a JS `Date` value: epoch milliseconds and the derived calendar
year (`getTime()` and `getFullYear()`). -/
structure JSDate where
  time : Int
  year : Int
deriving DecidableEq

/-- Model of the raw `timestamp` field of a document: absent/falsy, a value
whose date-parse yields an Invalid Date, or a value that parses to a date.
The three parse routes in `validateTimestamp` (Firestore seconds object, ISO
string, other) all end in a `Date`; what matters downstream is only whether
the parse succeeded and which date it produced. -/
inductive TsVal where
  | absent
  | unparseable
  | parsed (d : JSDate)
deriving DecidableEq

/-- Embedding of `validateTimestamp` (App.jsx lines 30-53): `null` for
absent or unparseable input, `null` when the resolved year is before 2025,
otherwise the resolved date. -/
def validateTimestamp : TsVal → Option JSDate
  | .absent => none
  | .unparseable => none
  | .parsed d => if d.year < 2025 then none else some d

/-- A JS object carrying a `timestamp` field and a `validTimestamp` slot, with
all other fields in `data` (JS spread `{...reading, validTimestamp: ...}`
keeps `data` untouched). `filterValidReadings` in the source is duck-typed:
it reads only `timestamp` and writes only `validTimestamp`. -/
structure Obj (α : Type) where
  data : α
  timestamp : TsVal
  validTimestamp : Option JSDate

/-- The `validTimestamp.getTime()` of a reading (0 if unset; the source only
calls it after `validTimestamp` has been attached). -/
def vtime {α : Type} (r : Obj α) : Int :=
  (r.validTimestamp.map JSDate.time).getD 0

/-- The sort comparator `(a, b) => b.validTimestamp.getTime() - a.validTimestamp.getTime()`
(descending by time) rendered as a `Bool`-valued order for `mergeSort`. -/
def readingLe {α : Type} (a b : Obj α) : Bool :=
  decide (vtime b ≤ vtime a)

/-- The map step of `filterValidReadings`:
`{...reading, validTimestamp: validateTimestamp(reading.timestamp)}`. -/
def attachTs {α : Type} (r : Obj α) : Obj α :=
  { r with validTimestamp := validateTimestamp r.timestamp }

/-- Embedding of `filterValidReadings` (App.jsx lines 56-64): keep readings
whose timestamp validates, attach the resolved date as `validTimestamp`, and
sort descending by it. -/
def filterValidReadings {α : Type} (readings : List (Obj α)) : List (Obj α) :=
  ((readings.filter fun r => (validateTimestamp r.timestamp).isSome).map attachTs).mergeSort
    readingLe

/-- JS `Math.round`: round half toward positive infinity. -/
def jround (q : ℚ) : Int :=
  Int.floor (q + 1/2)

/-- Embedding of `calculateAQI` (App.jsx lines 128-147). Only `pm25` enters
the computation; the result is clamped to at most 500. -/
def calculateAQI (pm1 pm25 pm10 : ℚ) : Int :=
  let aqi : Int :=
    if pm25 ≤ 12 then jround ((50 / 12) * pm25)
    else if pm25 ≤ 35.4 then jround (51 + ((100 - 51) / (35.4 - 12.1)) * (pm25 - 12.1))
    else if pm25 ≤ 55.4 then jround (101 + ((150 - 101) / (55.4 - 35.5)) * (pm25 - 35.5))
    else if pm25 ≤ 150.4 then jround (151 + ((200 - 151) / (150.4 - 55.5)) * (pm25 - 55.5))
    else if pm25 ≤ 250.4 then jround (201 + ((300 - 201) / (250.4 - 150.5)) * (pm25 - 150.5))
    else jround (301 + ((500 - 301) / (500 - 250.5)) * (pm25 - 250.5))
  min aqi 500

/-- Modelled from the spec's claim wording (C3): the EPA-style piecewise
formula with branch bounds 12, 35.4, 55.4, 150.4, 250.4 and the listed
segment formulas, clamped to a maximum of 500, as a function of pm25 alone. -/
def claimedAQIFormula (pm25 : ℚ) : Int :=
  let aqi : Int :=
    if pm25 ≤ 12 then jround ((50 / 12) * pm25)
    else if pm25 ≤ 35.4 then jround (51 + (49 / 23.3) * (pm25 - 12.1))
    else if pm25 ≤ 55.4 then jround (101 + (49 / 19.9) * (pm25 - 35.5))
    else if pm25 ≤ 150.4 then jround (151 + (49 / 94.9) * (pm25 - 55.5))
    else if pm25 ≤ 250.4 then jround (201 + (99 / 99.9) * (pm25 - 150.5))
    else jround (301 + (199 / 249.5) * (pm25 - 250.5))
  min aqi 500

/-- The value `calculateAQI` rounds, before rounding and clamping; used to
prove monotonicity. -/
def aqiRaw (pm25 : ℚ) : ℚ :=
  if pm25 ≤ 12 then (50 / 12) * pm25
  else if pm25 ≤ 35.4 then 51 + ((100 - 51) / (35.4 - 12.1)) * (pm25 - 12.1)
  else if pm25 ≤ 55.4 then 101 + ((150 - 101) / (55.4 - 35.5)) * (pm25 - 35.5)
  else if pm25 ≤ 150.4 then 151 + ((200 - 151) / (150.4 - 55.5)) * (pm25 - 55.5)
  else if pm25 ≤ 250.4 then 201 + ((300 - 201) / (250.4 - 150.5)) * (pm25 - 150.5)
  else 301 + ((500 - 301) / (500 - 250.5)) * (pm25 - 250.5)

/-- Result record of `getAQIStatus`. -/
structure AQIStatus where
  status : String
  advice : String
deriving DecidableEq

/-- Embedding of `getAQIStatus` (App.jsx lines 149-157). -/
def getAQIStatus (aqi : Int) : AQIStatus :=
  if aqi ≤ 50 then ⟨("Good"), ("Enjoy outdoor activities freely.")⟩
  else if aqi ≤ 100 then
    ⟨("Moderate"), ("Sensitive groups should limit prolonged outdoor exertion.")⟩
  else if aqi ≤ 150 then
    ⟨("Unhealthy for Sensitive Groups"), ("Sensitive individuals should reduce outdoor activity.")⟩
  else if aqi ≤ 200 then
    ⟨("Unhealthy"), ("Everyone should limit prolonged outdoor exertion.")⟩
  else if aqi ≤ 250 then
    ⟨("Very Unhealthy"), ("Avoid outdoor activities; wear masks if going outside.")⟩
  else if aqi ≤ 300 then
    ⟨("Severe"), ("Stay indoors; use air purifiers and avoid any outdoor exposure.")⟩
  else ⟨("Hazardous"), ("Remain indoors with sealed windows and avoid all outdoor activities.")⟩

/-- Embedding of `getAQIRange` (App.jsx lines 159-167). -/
def getAQIRange (aqi : Int) : String :=
  if aqi ≤ 50 then ("AQI (0-50)")
  else if aqi ≤ 100 then ("AQI (51-100)")
  else if aqi ≤ 150 then ("AQI (101-150)")
  else if aqi ≤ 200 then ("AQI (151-200)")
  else if aqi ≤ 250 then ("AQI (201-250)")
  else if aqi ≤ 300 then ("AQI (251-300)")
  else ("AQI (301-500)")

/-- Embedding of `getAQIRangeClass` (App.jsx lines 169-176). Note: this
function has only six branches; there is no branch for aqi in (250, 300]. -/
def getAQIRangeClass (aqi : Int) : String :=
  if aqi ≤ 50 then ("good")
  else if aqi ≤ 100 then ("moderate")
  else if aqi ≤ 150 then ("unhealthy-sensitive")
  else if aqi ≤ 200 then ("unhealthy")
  else if aqi ≤ 250 then ("very-unhealthy")
  else ("hazardous")

/-- The seven AQI categories named by the spec. -/
inductive AQICategory where
  | good
  | moderate
  | unhealthySensitive
  | unhealthy
  | veryUnhealthy
  | severe
  | hazardous
deriving DecidableEq

/-- Modelled from the spec (C1): the category assigned to an integer AQI by
the breakpoints 50/100/150/200/250/300, values above 300 being Hazardous. -/
def aqiCategory (aqi : Int) : AQICategory :=
  if aqi ≤ 50 then .good
  else if aqi ≤ 100 then .moderate
  else if aqi ≤ 150 then .unhealthySensitive
  else if aqi ≤ 200 then .unhealthy
  else if aqi ≤ 250 then .veryUnhealthy
  else if aqi ≤ 300 then .severe
  else .hazardous

/-- Which of the seven categories a `getAQIStatus` status string names. -/
def categoryOfStatus (s : String) : Option AQICategory :=
  if s = ("Good") then some .good
  else if s = ("Moderate") then some .moderate
  else if s = ("Unhealthy for Sensitive Groups") then some .unhealthySensitive
  else if s = ("Unhealthy") then some .unhealthy
  else if s = ("Very Unhealthy") then some .veryUnhealthy
  else if s = ("Severe") then some .severe
  else if s = ("Hazardous") then some .hazardous
  else none

/-- Which of the seven categories a `getAQIRange` label names. -/
def categoryOfRange (s : String) : Option AQICategory :=
  if s = ("AQI (0-50)") then some .good
  else if s = ("AQI (51-100)") then some .moderate
  else if s = ("AQI (101-150)") then some .unhealthySensitive
  else if s = ("AQI (151-200)") then some .unhealthy
  else if s = ("AQI (201-250)") then some .veryUnhealthy
  else if s = ("AQI (251-300)") then some .severe
  else if s = ("AQI (301-500)") then some .hazardous
  else none

/-- Which of the seven categories a `getAQIRangeClass` tag names. -/
def categoryOfClass (s : String) : Option AQICategory :=
  if s = ("good") then some .good
  else if s = ("moderate") then some .moderate
  else if s = ("unhealthy-sensitive") then some .unhealthySensitive
  else if s = ("unhealthy") then some .unhealthy
  else if s = ("very-unhealthy") then some .veryUnhealthy
  else if s = ("severe") then some .severe
  else if s = ("hazardous") then some .hazardous
  else none

/-- The consistency property claimed for the three category functions: the
status, the range label and the range class all name one same category. -/
def sameCategory (aqi : Int) : Prop :=
  ∃ c : AQICategory,
    categoryOfStatus (getAQIStatus aqi).status = some c ∧
    categoryOfRange (getAQIRange aqi) = some c ∧
    categoryOfClass (getAQIRangeClass aqi) = some c

/-- JS `x || d` for a numeric field: the default replaces a missing field and
the falsy number 0 (NaN is not modelled; no claim depends on it). -/
def jsOrNum (v : Option ℚ) (dflt : ℚ) : ℚ :=
  match v with
  | none => dflt
  | some x => if x = 0 then dflt else x

/-- JS `s || d` for a string field: the default replaces a missing field and
the falsy empty string. -/
def jsOrStr (v : Option String) (dflt : String) : String :=
  match v with
  | none => dflt
  | some s => if s = ("") then dflt else s

/-- The non-timestamp payload of a raw Firestore document (`doc.data()`
together with `doc.id`): every field may be absent. -/
structure RawDoc where
  id : String
  latitude : Option ℚ
  longitude : Option ℚ
  temperature : Option ℚ
  humidity : Option ℚ
  voc : Option ℚ
  pm25 : Option ℚ
  pm10 : Option ℚ
  pm1 : Option ℚ
  rainfall : Option ℚ
  windSpeed : Option ℚ
  windDirection : Option String
  co2 : Option ℚ
  deviceId : Option String

/-- The canonical reading record built by `fetchData` and the `onSnapshot`
callback (the fallback reading has no `id`, hence the `Option`). -/
structure ReadingData where
  id : Option String
  latitude : ℚ
  longitude : ℚ
  temperature : ℚ
  humidity : ℚ
  voc : ℚ
  pm25 : ℚ
  pm10 : ℚ
  pm1 : ℚ
  rainfall : ℚ
  windSpeed : ℚ
  windDirection : String
  co2 : ℚ
  deviceId : String
  aqi : Int

/-- The reading-construction step shared by `fetchData` (App.jsx lines
211-229) and the `onSnapshot` callback (lines 314-332): apply the `||`
defaults to every non-timestamp field, keep the raw timestamp, attach the
resolved date, and compute the aqi from the defaulted pollutant values. -/
def toReading (doc : Obj RawDoc) (validDate : JSDate) : Obj ReadingData :=
  { data :=
      { id := some doc.data.id
        latitude := jsOrNum doc.data.latitude 6.791164
        longitude := jsOrNum doc.data.longitude 79.900497
        temperature := jsOrNum doc.data.temperature 0
        humidity := jsOrNum doc.data.humidity 0
        voc := jsOrNum doc.data.voc 0
        pm25 := jsOrNum doc.data.pm25 0
        pm10 := jsOrNum doc.data.pm10 0
        pm1 := jsOrNum doc.data.pm1 0
        rainfall := jsOrNum doc.data.rainfall 0
        windSpeed := jsOrNum doc.data.windSpeed 0
        windDirection := jsOrStr doc.data.windDirection ("N")
        co2 := jsOrNum doc.data.co2 0
        deviceId := jsOrStr doc.data.deviceId ("")
        aqi := calculateAQI (jsOrNum doc.data.pm1 0) (jsOrNum doc.data.pm25 0)
                 (jsOrNum doc.data.pm10 0) }
    timestamp := doc.timestamp
    validTimestamp := some validDate }

/-- The document-processing pipeline shared by `fetchData` and the
`onSnapshot` callback: drop documents whose timestamp does not validate,
build readings with `toReading`, and sort descending by the resolved time. -/
def processDocs (docs : List (Obj RawDoc)) : List (Obj ReadingData) :=
  (docs.filterMap fun doc => (validateTimestamp doc.timestamp).map (toReading doc)).mergeSort
    readingLe

open scoped Classical

/-- JS `Math.atan2 y x` over the reals (signed zeros are not representable;
the haversine use sites only reach the first and the last three branches). -/
noncomputable def jsAtan2 (y x : ℝ) : ℝ :=
  if 0 < x then Real.arctan (y / x)
  else if x < 0 ∧ 0 ≤ y then Real.arctan (y / x) + Real.pi
  else if x < 0 then Real.arctan (y / x) - Real.pi
  else if 0 < y then Real.pi / 2
  else if y < 0 then -(Real.pi / 2)
  else 0

/-- Embedding of `calculateDistance` (App.jsx lines 67-80): haversine
great-circle distance in meters with Earth radius 6371e3. -/
noncomputable def calculateDistance (lat1 lon1 lat2 lon2 : ℚ) : ℝ :=
  let R : ℝ := 6371000
  let phi1 := (lat1 : ℝ) * Real.pi / 180
  let phi2 := (lat2 : ℝ) * Real.pi / 180
  let dphi := ((lat2 : ℝ) - (lat1 : ℝ)) * Real.pi / 180
  let dlam := ((lon2 : ℝ) - (lon1 : ℝ)) * Real.pi / 180
  let a := Real.sin (dphi / 2) * Real.sin (dphi / 2) +
    Real.cos phi1 * Real.cos phi2 * Real.sin (dlam / 2) * Real.sin (dlam / 2)
  let c := 2 * jsAtan2 (Real.sqrt a) (Real.sqrt (1 - a))
  R * c

/-- A proximity group: the anchor coordinate and the readings assigned to
it, in assignment order. -/
structure LocationGroup where
  latitude : ℚ
  longitude : ℚ
  readings : List (Obj ReadingData)

/-- One iteration of the `forEach` body of `groupLocationsByProximity`
(App.jsx lines 89-112): walk the existing groups in creation order, append
the reading to the first group whose anchor is within 5 meters, and if none
matches append a new group anchored at the reading's coordinate. -/
noncomputable def insertReading (r : Obj ReadingData) : List LocationGroup → List LocationGroup
  | [] => [⟨r.data.latitude, r.data.longitude, [r]⟩]
  | g :: gs =>
    if calculateDistance r.data.latitude r.data.longitude g.latitude g.longitude ≤ 5 then
      { g with readings := g.readings ++ [r] } :: gs
    else
      g :: insertReading r gs

/-- Embedding of `groupLocationsByProximity` (App.jsx lines 83-115): filter
and sort the readings, scan them building groups, and return only the first
5 groups. -/
noncomputable def groupLocationsByProximity (readings : List (Obj ReadingData)) :
    List LocationGroup :=
  ((filterValidReadings readings).foldl (fun gs r => insertReading r gs) []).take 5

/-- The dashboard state owned by the `App` component. -/
structure AppState where
  currentData : Option (Obj ReadingData)
  historyData : List (Obj ReadingData)
  loading : Bool
  locationGroups : List LocationGroup
  selectedLocationGroup : Option LocationGroup
  locationHistoryData : List (Obj ReadingData)

/-- The hardcoded fallback reading used on the empty-result and error paths
of `fetchData` (App.jsx lines 248-265 and 273-291); `now` models
`new Date()`. -/
def fallbackReading (now : JSDate) : Obj ReadingData :=
  { data :=
      { id := none
        latitude := 6.791164
        longitude := 79.900497
        temperature := 30
        humidity := 80
        voc := 140
        pm25 := 40
        pm10 := 0
        pm1 := 0
        rainfall := 0
        windSpeed := 0
        windDirection := ("N")
        co2 := 0
        deviceId := ("")
        aqi := calculateAQI 0 40 0 }
    timestamp := .parsed now
    validTimestamp := some now }

/-- The success path of `fetchData` (App.jsx lines 190-269 followed by the
`finally` block): process the fetched documents, rebuild the location
groups, set `current` to the head (or to the fallback when no document
survived validation), set `history` to `slice(1, 6)`, and clear `loading`. -/
noncomputable def fetchSuccess (now : JSDate) (docs : List (Obj RawDoc)) (s : AppState) :
    AppState :=
  let allReadings := processDocs docs
  { s with
    locationGroups := groupLocationsByProximity allReadings
    currentData :=
      match allReadings with
      | [] => some (fallbackReading now)
      | r :: _ => some r
    historyData := (allReadings.drop 1).take 5
    loading := false }

/-- The error path of `fetchData` (App.jsx lines 270-294): set `current` to
the fallback reading and clear `loading`; nothing else changes. -/
def fetchError (now : JSDate) (s : AppState) : AppState :=
  { s with currentData := some (fallbackReading now), loading := false }

/-- The `onSnapshot` callback (App.jsx lines 306-343): process the batch
and, when at least one reading survives validation, replace `current` with
the head; nothing else changes. -/
def snapshotUpdate (docs : List (Obj RawDoc)) (s : AppState) : AppState :=
  match processDocs docs with
  | [] => s
  | r :: _ => { s with currentData := some r }

/-- A raw document whose every non-timestamp field is absent, with a valid
2025 timestamp; used as concrete input in witnesses. -/
def rawEmptyDoc : Obj RawDoc :=
  { data :=
      { id := ("d1"), latitude := none, longitude := none, temperature := none
        humidity := none, voc := none, pm25 := none, pm10 := none, pm1 := none
        rainfall := none, windSpeed := none, windDirection := none, co2 := none
        deviceId := none }
    timestamp := .parsed ⟨1, 2025⟩
    validTimestamp := none }

/-- A minimal processed reading at a given coordinate and epoch time; used
as concrete input in witnesses. -/
def mkReading (lat lon : ℚ) (t : Int) : Obj ReadingData :=
  { data :=
      { id := none, latitude := lat, longitude := lon, temperature := 0, humidity := 0
        voc := 0, pm25 := 0, pm10 := 0, pm1 := 0, rainfall := 0, windSpeed := 0
        windDirection := ("N"), co2 := 0, deviceId := (""), aqi := 0 }
    timestamp := .parsed ⟨t, 2025⟩
    validTimestamp := none }

/-- The shape invariant of a built group: it is nonempty, anchored at the
coordinates of the first reading assigned to it, and every reading in it is
within 5 meters of that (never recomputed) anchor. -/
def groupOK (g : LocationGroup) : Prop :=
  ∃ hd tl, g.readings = hd :: tl ∧
    g.latitude = hd.data.latitude ∧ g.longitude = hd.data.longitude ∧
    ∀ r ∈ g.readings,
      calculateDistance r.data.latitude r.data.longitude g.latitude g.longitude ≤ 5

/-- C1 counterexample: at aqi = 251 (an integer in [0,500]) the three
functions do not assign one same category: `getAQIStatus` and `getAQIRange`
put 251 in the Severe bucket while `getAQIRangeClass` returns the tag
"hazardous", because its if-chain has no branch for (250, 300]. -/
theorem c1_counterexample : (0 : Int) ≤ 251 ∧ (251 : Int) ≤ 500 ∧ ¬ sameCategory 251 := by
  refine ⟨by norm_num, by norm_num, ?_⟩
  rintro ⟨c, h1, -, h3⟩
  rw [show categoryOfStatus (getAQIStatus 251).status = some AQICategory.severe from rfl] at h1
  rw [show categoryOfClass (getAQIRangeClass 251) = some AQICategory.hazardous from rfl] at h3
  rw [← Option.some.inj h1] at h3
  exact AQICategory.noConfusion (Option.some.inj h3)

/-- C1 amended: for every integer aqi, `getAQIStatus` and `getAQIRange`
assign the category given by the breakpoints 50/100/150/200/250/300 (values
above 300 Hazardous); `getAQIRangeClass` assigns that same category except
for aqi in (250, 300], which it tags "hazardous" (it has no severe class,
merging Severe into Hazardous). -/
theorem c1_amended_consistency (aqi : Int) :
    categoryOfStatus (getAQIStatus aqi).status = some (aqiCategory aqi) ∧
    categoryOfRange (getAQIRange aqi) = some (aqiCategory aqi) ∧
    categoryOfClass (getAQIRangeClass aqi) =
      some (if 250 < aqi ∧ aqi ≤ 300 then .hazardous else aqiCategory aqi) := by
  by_cases h1 : aqi ≤ 50
  · have hn : ¬ (250 < aqi ∧ aqi ≤ 300) := by omega
    simp [getAQIStatus, getAQIRange, getAQIRangeClass, aqiCategory,
      categoryOfStatus, categoryOfRange, categoryOfClass, h1, hn]
  · by_cases h2 : aqi ≤ 100
    · have hn : ¬ (250 < aqi ∧ aqi ≤ 300) := by omega
      simp [getAQIStatus, getAQIRange, getAQIRangeClass, aqiCategory,
        categoryOfStatus, categoryOfRange, categoryOfClass, h1, h2, hn]
    · by_cases h3 : aqi ≤ 150
      · have hn : ¬ (250 < aqi ∧ aqi ≤ 300) := by omega
        simp [getAQIStatus, getAQIRange, getAQIRangeClass, aqiCategory,
          categoryOfStatus, categoryOfRange, categoryOfClass, h1, h2, h3, hn]
      · by_cases h4 : aqi ≤ 200
        · have hn : ¬ (250 < aqi ∧ aqi ≤ 300) := by omega
          simp [getAQIStatus, getAQIRange, getAQIRangeClass, aqiCategory,
            categoryOfStatus, categoryOfRange, categoryOfClass, h1, h2, h3, h4, hn]
        · by_cases h5 : aqi ≤ 250
          · have hn : ¬ (250 < aqi ∧ aqi ≤ 300) := by omega
            simp [getAQIStatus, getAQIRange, getAQIRangeClass, aqiCategory,
              categoryOfStatus, categoryOfRange, categoryOfClass, h1, h2, h3, h4, h5, hn]
          · by_cases h6 : aqi ≤ 300
            · have hy : 250 < aqi ∧ aqi ≤ 300 := by omega
              simp [getAQIStatus, getAQIRange, getAQIRangeClass, aqiCategory,
                categoryOfStatus, categoryOfRange, categoryOfClass, h1, h2, h3, h4, h5, h6, hy]
            · have hn : ¬ (250 < aqi ∧ aqi ≤ 300) := by omega
              simp [getAQIStatus, getAQIRange, getAQIRangeClass, aqiCategory,
                categoryOfStatus, categoryOfRange, categoryOfClass, h1, h2, h3, h4, h5, h6, hn]

/-- C3: `calculateAQI` coincides everywhere with the claimed EPA-style
piecewise formula on pm25 alone (clamped at 500), is independent of pm1 and
pm10, and takes the claimed boundary values 0, 50, 100 at pm25 = 0, 12,
35.4 exactly. -/
theorem c3_aqi_formula (pm1 pm25 pm10 pm1' pm10' : ℚ) :
    calculateAQI pm1 pm25 pm10 = claimedAQIFormula pm25 ∧
    calculateAQI pm1 pm25 pm10 = calculateAQI pm1' pm25 pm10' ∧
    calculateAQI 0 0 0 = 0 ∧
    calculateAQI pm1 12 pm10 = 50 ∧
    calculateAQI pm1 (35.4) pm10 = 100 := by
  refine ⟨?_, rfl, ?_, ?_, ?_⟩
  · simp only [calculateAQI, claimedAQIFormula]
    norm_num
  · norm_num [calculateAQI, jround]
  · norm_num [calculateAQI, jround]
  · norm_num [calculateAQI, jround]

/-- Unfolding `calculateAQI` through the shared pre-rounding value. -/
theorem calculateAQI_eq_raw (pm1 pm25 pm10 : ℚ) :
    calculateAQI pm1 pm25 pm10 = min (jround (aqiRaw pm25)) 500 := by
  simp only [calculateAQI, aqiRaw]
  split_ifs <;> rfl

/-- The pre-rounding piecewise value is monotone in pm25: within each branch
it is linear with positive slope, and at each branch boundary the next
segment starts above the previous segment's endpoint. -/
theorem aqiRaw_mono (a b : ℚ) (hab : a ≤ b) : aqiRaw a ≤ aqiRaw b := by
  simp only [aqiRaw]
  split_ifs <;> linarith

/-- C4: for fixed pm1 and pm10, `calculateAQI` is monotone non-decreasing in
its pm25 argument. -/
theorem c4_aqi_monotone (pm1 pm10 a b : ℚ) (h : a ≤ b) :
    calculateAQI pm1 a pm10 ≤ calculateAQI pm1 b pm10 := by
  rw [calculateAQI_eq_raw, calculateAQI_eq_raw]
  have hr : aqiRaw a ≤ aqiRaw b := aqiRaw_mono a b h
  have hj : jround (aqiRaw a) ≤ jround (aqiRaw b) := Int.floor_le_floor (by linarith)
  exact min_le_min hj le_rfl

/-- C4 witness: the monotonicity theorem applied at pm25 values 10 ≤ 20. -/
theorem c4_witness : (10 : ℚ) ≤ 20 ∧ calculateAQI 0 10 0 ≤ calculateAQI 0 20 0 :=
  ⟨by norm_num, c4_aqi_monotone 0 0 10 20 (by norm_num)⟩

/-- The descending-time comparator is transitive. -/
theorem readingLe_trans {α : Type} (a b c : Obj α) (h1 : readingLe a b = true)
    (h2 : readingLe b c = true) : readingLe a c = true := by
  simp only [readingLe, decide_eq_true_eq] at *
  omega

/-- The descending-time comparator is total. -/
theorem readingLe_total {α : Type} (a b : Obj α) : (readingLe a b || readingLe b a) = true := by
  simp only [readingLe, Bool.or_eq_true, decide_eq_true_eq]
  omega

/-- Every element of `filterValidReadings l` is an element of `l` with its
resolved timestamp attached, and its timestamp validates. -/
theorem mem_filterValidReadings {α : Type} {l : List (Obj α)} {r : Obj α}
    (hr : r ∈ filterValidReadings l) :
    ∃ r0 ∈ l, r = attachTs r0 ∧ ∃ d, validateTimestamp r0.timestamp = some d := by
  have hm : r ∈ (l.filter fun x => (validateTimestamp x.timestamp).isSome).map attachTs :=
    (List.mergeSort_perm _ readingLe).mem_iff.1 hr
  obtain ⟨r0, hr0f, heq⟩ := List.mem_map.1 hm
  have hf := List.mem_filter.1 hr0f
  obtain ⟨d, hd⟩ := Option.isSome_iff_exists.1 hf.2
  exact ⟨r0, hf.1, heq.symm, d, hd⟩

/-- C5: `filterValidReadings` keeps exactly the readings whose timestamp
validates (absent, unparseable and pre-2025 timestamps are excluded),
attaches the resolved time as `validTimestamp`, and returns the result
sorted non-increasing by that time. -/
theorem c5_filter_valid {α : Type} (l : List (Obj α)) :
    (filterValidReadings l).Perm
      ((l.filter fun r => (validateTimestamp r.timestamp).isSome).map attachTs) ∧
    List.Pairwise (fun a b : Obj α => vtime b ≤ vtime a) (filterValidReadings l) ∧
    (∀ r ∈ filterValidReadings l,
      ∃ d, validateTimestamp r.timestamp = some d ∧ r.validTimestamp = some d) ∧
    validateTimestamp .absent = none ∧
    validateTimestamp .unparseable = none ∧
    (∀ d : JSDate, d.year < 2025 → validateTimestamp (.parsed d) = none) ∧
    (∀ d : JSDate, 2025 ≤ d.year → validateTimestamp (.parsed d) = some d) := by
  refine ⟨List.mergeSort_perm _ _, ?_, ?_, rfl, rfl, ?_, ?_⟩
  · have hs := @List.sorted_mergeSort (Obj α) readingLe
      (fun a b c => readingLe_trans a b c) (fun a b => readingLe_total a b)
      ((l.filter fun r => (validateTimestamp r.timestamp).isSome).map attachTs)
    exact hs.imp fun h => by simpa [readingLe] using h
  · intro r hr
    obtain ⟨r0, _, rfl, d, hd⟩ := mem_filterValidReadings hr
    exact ⟨d, by simpa [attachTs] using hd, by simpa [attachTs] using hd⟩
  · intro d h
    simp [validateTimestamp, h]
  · intro d h
    rw [validateTimestamp, if_neg (by omega)]

/-- C5 witness: the theorem applied to a concrete two-element list, with the
pre-2025 rejection hypothesis discharged at the date ⟨5, 2024⟩. -/
theorem c5_witness :
    ((⟨5, 2024⟩ : JSDate)).year < 2025 ∧
    validateTimestamp (.parsed ⟨5, 2024⟩) = none ∧
    List.Pairwise (fun a b : Obj Unit => vtime b ≤ vtime a)
      (filterValidReadings [⟨(), .parsed ⟨9, 2025⟩, none⟩, ⟨(), .parsed ⟨5, 2024⟩, none⟩]) :=
  ⟨by decide,
   (c5_filter_valid ([] : List (Obj Unit))).2.2.2.2.2.1 ⟨5, 2024⟩ (by decide),
   (c5_filter_valid [⟨(), .parsed ⟨9, 2025⟩, none⟩, ⟨(), .parsed ⟨5, 2024⟩, none⟩]).2.1⟩

/-- C2 counterexample: a raw document with every non-timestamp field absent
and a valid 2025 timestamp is retained by `filterValidReadings`, but its
latitude is still absent afterwards — `filterValidReadings` performs no
coercion to the documented default 6.791164 (the defaulting lives in the
fetch paths instead). -/
theorem c2_counterexample :
    ¬ (∀ r ∈ filterValidReadings [rawEmptyDoc], r.data.latitude = some 6.791164) ∧
    (filterValidReadings [rawEmptyDoc]).map (fun r => r.data.latitude) = [none] ∧
    (filterValidReadings [rawEmptyDoc]).length = 1 := by
  have h : filterValidReadings [rawEmptyDoc] = [attachTs rawEmptyDoc] := by
    simp [filterValidReadings, validateTimestamp, rawEmptyDoc, List.filter,
      List.mergeSort_singleton]
  rw [h]
  refine ⟨fun hc => ?_, rfl, rfl⟩
  have := hc (attachTs rawEmptyDoc) (List.mem_singleton.2 rfl)
  simp [attachTs, rawEmptyDoc] at this

/-- C2 amended: the defaulting of missing/falsy non-timestamp fields to the
documented defaults is performed by the reading construction of `fetchData`
and the `onSnapshot` callback (`toReading`), not by `filterValidReadings`,
which passes non-timestamp fields through unchanged. -/
theorem c2_amended_defaults {α : Type} (doc : Obj RawDoc) (d : JSDate) (l : List (Obj α)) :
    (doc.data.latitude = none ∨ doc.data.latitude = some 0 →
      (toReading doc d).data.latitude = 6.791164) ∧
    (∀ x : ℚ, doc.data.latitude = some x → x ≠ 0 → (toReading doc d).data.latitude = x) ∧
    (doc.data.longitude = none ∨ doc.data.longitude = some 0 →
      (toReading doc d).data.longitude = 79.900497) ∧
    (doc.data.windDirection = none ∨ doc.data.windDirection = some ("") →
      (toReading doc d).data.windDirection = ("N")) ∧
    (doc.data.deviceId = none ∨ doc.data.deviceId = some ("") →
      (toReading doc d).data.deviceId = ("")) ∧
    (doc.data.temperature = none ∨ doc.data.temperature = some 0 →
      (toReading doc d).data.temperature = 0) ∧
    (doc.data.humidity = none ∨ doc.data.humidity = some 0 →
      (toReading doc d).data.humidity = 0) ∧
    (doc.data.voc = none ∨ doc.data.voc = some 0 → (toReading doc d).data.voc = 0) ∧
    (doc.data.pm25 = none ∨ doc.data.pm25 = some 0 → (toReading doc d).data.pm25 = 0) ∧
    (doc.data.pm10 = none ∨ doc.data.pm10 = some 0 → (toReading doc d).data.pm10 = 0) ∧
    (doc.data.pm1 = none ∨ doc.data.pm1 = some 0 → (toReading doc d).data.pm1 = 0) ∧
    (doc.data.rainfall = none ∨ doc.data.rainfall = some 0 →
      (toReading doc d).data.rainfall = 0) ∧
    (doc.data.windSpeed = none ∨ doc.data.windSpeed = some 0 →
      (toReading doc d).data.windSpeed = 0) ∧
    (doc.data.co2 = none ∨ doc.data.co2 = some 0 → (toReading doc d).data.co2 = 0) ∧
    (∀ r ∈ filterValidReadings l, ∃ r0 ∈ l, r.data = r0.data ∧ r.timestamp = r0.timestamp) := by
  refine ⟨fun h => ?_, fun x hx hx0 => ?_, fun h => ?_, fun h => ?_, fun h => ?_, fun h => ?_,
    fun h => ?_, fun h => ?_, fun h => ?_, fun h => ?_, fun h => ?_, fun h => ?_, fun h => ?_,
    fun h => ?_, fun r hr => ?_⟩
  case _ => rcases h with h | h <;> simp [toReading, jsOrNum, h]
  case _ => simp [toReading, jsOrNum, hx, hx0]
  case _ => rcases h with h | h <;> simp [toReading, jsOrNum, h]
  case _ => rcases h with h | h <;> simp [toReading, jsOrStr, h]
  case _ => rcases h with h | h <;> simp [toReading, jsOrStr, h]
  case _ => rcases h with h | h <;> simp [toReading, jsOrNum, h]
  case _ => rcases h with h | h <;> simp [toReading, jsOrNum, h]
  case _ => rcases h with h | h <;> simp [toReading, jsOrNum, h]
  case _ => rcases h with h | h <;> simp [toReading, jsOrNum, h]
  case _ => rcases h with h | h <;> simp [toReading, jsOrNum, h]
  case _ => rcases h with h | h <;> simp [toReading, jsOrNum, h]
  case _ => rcases h with h | h <;> simp [toReading, jsOrNum, h]
  case _ => rcases h with h | h <;> simp [toReading, jsOrNum, h]
  case _ => rcases h with h | h <;> simp [toReading, jsOrNum, h]
  case _ =>
    obtain ⟨r0, hr0, rfl, -⟩ := mem_filterValidReadings hr
    exact ⟨r0, hr0, rfl, rfl⟩

/-- C2 witness: the amended theorem applied to the all-absent raw document,
discharging the missing-field hypotheses there. -/
theorem c2_witness :
    rawEmptyDoc.data.latitude = none ∧
    (toReading rawEmptyDoc ⟨1, 2025⟩).data.latitude = 6.791164 ∧
    (toReading rawEmptyDoc ⟨1, 2025⟩).data.windDirection = ("N") ∧
    (toReading rawEmptyDoc ⟨1, 2025⟩).data.pm25 = 0 :=
  ⟨rfl,
   (c2_amended_defaults rawEmptyDoc ⟨1, 2025⟩ ([] : List (Obj Unit))).1 (Or.inl rfl),
   (c2_amended_defaults rawEmptyDoc ⟨1, 2025⟩ ([] : List (Obj Unit))).2.2.2.1 (Or.inl rfl),
   (c2_amended_defaults rawEmptyDoc ⟨1, 2025⟩ ([] : List (Obj Unit))).2.2.2.2.2.2.2.2.1 (Or.inl rfl)⟩

/-- The haversine distance from a point to itself is 0. -/
theorem calculateDistance_self (lat lon : ℚ) : calculateDistance lat lon lat lon = 0 := by
  simp [calculateDistance, jsAtan2, sub_self, Real.sin_zero, Real.sqrt_zero, Real.sqrt_one,
    Real.arctan_zero]

/-- The haversine angular argument is symmetric in the two points. -/
theorem haversineA_symm (lat1 lon1 lat2 lon2 : ℚ) :
    Real.sin (((lat2 : ℝ) - (lat1 : ℝ)) * Real.pi / 180 / 2) *
        Real.sin (((lat2 : ℝ) - (lat1 : ℝ)) * Real.pi / 180 / 2) +
      Real.cos ((lat1 : ℝ) * Real.pi / 180) * Real.cos ((lat2 : ℝ) * Real.pi / 180) *
        Real.sin (((lon2 : ℝ) - (lon1 : ℝ)) * Real.pi / 180 / 2) *
        Real.sin (((lon2 : ℝ) - (lon1 : ℝ)) * Real.pi / 180 / 2) =
    Real.sin (((lat1 : ℝ) - (lat2 : ℝ)) * Real.pi / 180 / 2) *
        Real.sin (((lat1 : ℝ) - (lat2 : ℝ)) * Real.pi / 180 / 2) +
      Real.cos ((lat2 : ℝ) * Real.pi / 180) * Real.cos ((lat1 : ℝ) * Real.pi / 180) *
        Real.sin (((lon1 : ℝ) - (lon2 : ℝ)) * Real.pi / 180 / 2) *
        Real.sin (((lon1 : ℝ) - (lon2 : ℝ)) * Real.pi / 180 / 2) := by
  have h1 : ((lat1 : ℝ) - (lat2 : ℝ)) * Real.pi / 180 / 2 =
      -(((lat2 : ℝ) - (lat1 : ℝ)) * Real.pi / 180 / 2) := by ring
  have h2 : ((lon1 : ℝ) - (lon2 : ℝ)) * Real.pi / 180 / 2 =
      -(((lon2 : ℝ) - (lon1 : ℝ)) * Real.pi / 180 / 2) := by ring
  rw [h1, h2, Real.sin_neg, Real.sin_neg]
  ring

/-- The haversine distance is symmetric. -/
theorem calculateDistance_symm (lat1 lon1 lat2 lon2 : ℚ) :
    calculateDistance lat1 lon1 lat2 lon2 = calculateDistance lat2 lon2 lat1 lon1 := by
  simp only [calculateDistance]
  rw [haversineA_symm lat1 lon1 lat2 lon2]

/-- On a common meridian the haversine distance reduces to Earth radius
times the latitude difference in radians (for differences below 180°). -/
theorem calculateDistance_same_lon (lat1 lat2 lon : ℚ) (h0 : lat1 ≤ lat2)
    (h180 : (lat2 : ℝ) - (lat1 : ℝ) < 180) :
    calculateDistance lat1 lon lat2 lon =
      6371000 * (((lat2 : ℝ) - (lat1 : ℝ)) * Real.pi / 180) := by
  have hpi : (0 : ℝ) < Real.pi := Real.pi_pos
  have hx0 : (0 : ℝ) ≤ (lat2 : ℝ) - (lat1 : ℝ) := by
    have : (lat1 : ℝ) ≤ (lat2 : ℝ) := by exact_mod_cast h0
    linarith
  have ht0 : (0 : ℝ) ≤ ((lat2 : ℝ) - (lat1 : ℝ)) * Real.pi / 180 / 2 := by positivity
  have htlt : ((lat2 : ℝ) - (lat1 : ℝ)) * Real.pi / 180 / 2 < Real.pi / 2 := by
    have hstep : (0 : ℝ) < (180 - ((lat2 : ℝ) - (lat1 : ℝ))) * Real.pi :=
      mul_pos (by linarith) hpi
    nlinarith
  have htpi : ((lat2 : ℝ) - (lat1 : ℝ)) * Real.pi / 180 / 2 ≤ Real.pi := by linarith
  have hsin0 : (0 : ℝ) ≤ Real.sin (((lat2 : ℝ) - (lat1 : ℝ)) * Real.pi / 180 / 2) :=
    Real.sin_nonneg_of_nonneg_of_le_pi ht0 htpi
  have hcos0 : (0 : ℝ) < Real.cos (((lat2 : ℝ) - (lat1 : ℝ)) * Real.pi / 180 / 2) :=
    Real.cos_pos_of_mem_Ioo ⟨by linarith, htlt⟩
  have hsq : Real.sqrt
      (Real.sin (((lat2 : ℝ) - (lat1 : ℝ)) * Real.pi / 180 / 2) *
        Real.sin (((lat2 : ℝ) - (lat1 : ℝ)) * Real.pi / 180 / 2)) =
      Real.sin (((lat2 : ℝ) - (lat1 : ℝ)) * Real.pi / 180 / 2) :=
    Real.sqrt_mul_self hsin0
  have hpyth := Real.sin_sq_add_cos_sq (((lat2 : ℝ) - (lat1 : ℝ)) * Real.pi / 180 / 2)
  rw [pow_two, pow_two] at hpyth
  have hsqc : Real.sqrt
      (1 - Real.sin (((lat2 : ℝ) - (lat1 : ℝ)) * Real.pi / 180 / 2) *
        Real.sin (((lat2 : ℝ) - (lat1 : ℝ)) * Real.pi / 180 / 2)) =
      Real.cos (((lat2 : ℝ) - (lat1 : ℝ)) * Real.pi / 180 / 2) := by
    rw [show (1 : ℝ) - Real.sin (((lat2 : ℝ) - (lat1 : ℝ)) * Real.pi / 180 / 2) *
        Real.sin (((lat2 : ℝ) - (lat1 : ℝ)) * Real.pi / 180 / 2) =
        Real.cos (((lat2 : ℝ) - (lat1 : ℝ)) * Real.pi / 180 / 2) *
        Real.cos (((lat2 : ℝ) - (lat1 : ℝ)) * Real.pi / 180 / 2) from by linarith,
      Real.sqrt_mul_self hcos0.le]
  have hatan : jsAtan2 (Real.sin (((lat2 : ℝ) - (lat1 : ℝ)) * Real.pi / 180 / 2))
      (Real.cos (((lat2 : ℝ) - (lat1 : ℝ)) * Real.pi / 180 / 2)) =
      ((lat2 : ℝ) - (lat1 : ℝ)) * Real.pi / 180 / 2 := by
    rw [jsAtan2, if_pos hcos0, ← Real.tan_eq_sin_div_cos,
      Real.arctan_tan (by linarith) htlt]
  simp only [calculateDistance, sub_self, zero_mul, zero_div, Real.sin_zero, mul_zero,
    add_zero]
  rw [hsq, hsqc, hatan]
  ring

/-- Two points on a common meridian whose latitudes differ by 1 to 10
degrees are at least 50 meters apart (in both argument orders, and hence
more than 5 meters apart). -/
theorem calculateDistance_deg_far (p q lon : ℚ) (h1 : 1 ≤ q - p) (h2 : q - p ≤ 10) :
    50 ≤ calculateDistance p lon q lon ∧ 50 ≤ calculateDistance q lon p lon ∧
      5 < calculateDistance p lon q lon ∧ 5 < calculateDistance q lon p lon := by
  have hle : p ≤ q := by linarith
  have hx1 : (1 : ℝ) ≤ (q : ℝ) - (p : ℝ) := by exact_mod_cast h1
  have hx2 : (q : ℝ) - (p : ℝ) ≤ 10 := by exact_mod_cast h2
  have hform := calculateDistance_same_lon p q lon hle (by linarith)
  have hpi3 : (3 : ℝ) < Real.pi := Real.pi_gt_three
  have hmul : (3 : ℝ) ≤ ((q : ℝ) - (p : ℝ)) * Real.pi := by
    have : Real.pi ≤ ((q : ℝ) - (p : ℝ)) * Real.pi :=
      le_mul_of_one_le_left Real.pi_pos.le hx1
    linarith
  have h50 : (50 : ℝ) ≤ calculateDistance p lon q lon := by
    rw [hform]
    have : (6371000 : ℝ) * 3 / 180 ≤ 6371000 * (((q : ℝ) - (p : ℝ)) * Real.pi) / 180 := by
      have := mul_le_mul_of_nonneg_left hmul (by norm_num : (0 : ℝ) ≤ 6371000)
      linarith
    have heq : (6371000 : ℝ) * (((q : ℝ) - (p : ℝ)) * Real.pi / 180) =
        6371000 * (((q : ℝ) - (p : ℝ)) * Real.pi) / 180 := by ring
    rw [heq]
    linarith
  have h50s : (50 : ℝ) ≤ calculateDistance q lon p lon := by
    rw [calculateDistance_symm q lon p lon]
    exact h50
  exact ⟨h50, h50s, by linarith, by linarith⟩

/-- Inserting a reading preserves the group shape invariant: the reading
joins a group only when it is within 5 meters of its fixed anchor, and a
new group is anchored at the reading's own coordinates. -/
theorem insertReading_groupOK (r : Obj ReadingData) (gs : List LocationGroup)
    (h : ∀ g ∈ gs, groupOK g) : ∀ g ∈ insertReading r gs, groupOK g := by
  induction gs with
  | nil =>
    intro g hg
    simp only [insertReading, List.mem_singleton] at hg
    subst hg
    refine ⟨r, [], rfl, rfl, rfl, ?_⟩
    intro r' hr'
    simp only [List.mem_singleton] at hr'
    subst hr'
    rw [calculateDistance_self]
    norm_num
  | cons g0 gs ih =>
    intro g hg
    rw [insertReading] at hg
    by_cases hd : calculateDistance r.data.latitude r.data.longitude g0.latitude g0.longitude ≤ 5
    · rw [if_pos hd] at hg
      rcases List.mem_cons.1 hg with rfl | hmem
      · obtain ⟨hd0, tl0, he, hlat, hlon, hall⟩ := h g0 (List.mem_cons_self g0 gs)
        refine ⟨hd0, tl0 ++ [r], by simp [he], hlat, hlon, ?_⟩
        intro r' hr'
        rcases List.mem_append.1 hr' with h1 | h2
        · exact hall r' h1
        · rw [List.mem_singleton] at h2
          subst h2
          exact hd
      · exact h _ (List.mem_cons_of_mem _ hmem)
    · rw [if_neg hd] at hg
      rcases List.mem_cons.1 hg with rfl | hmem
      · exact h _ (List.mem_cons_self g gs)
      · exact ih (fun g' hg' => h g' (List.mem_cons_of_mem _ hg')) g hmem

/-- The fold over all readings preserves the group shape invariant. -/
theorem foldl_insert_groupOK (rs : List (Obj ReadingData)) (gs : List LocationGroup)
    (h : ∀ g ∈ gs, groupOK g) :
    ∀ g ∈ rs.foldl (fun acc r => insertReading r acc) gs, groupOK g := by
  induction rs generalizing gs with
  | nil => simpa using h
  | cons r rs ih =>
    intro g hg
    rw [List.foldl_cons] at hg
    exact ih (insertReading r gs) (insertReading_groupOK r gs h) g hg

/-- Every group present after an insertion either keeps the anchor of an
existing group or is the new group anchored at the inserted reading. -/
theorem insertReading_anchors (r : Obj ReadingData) (gs : List LocationGroup) :
    ∀ g ∈ insertReading r gs,
      (∃ g0 ∈ gs, g.latitude = g0.latitude ∧ g.longitude = g0.longitude) ∨
      (g.latitude = r.data.latitude ∧ g.longitude = r.data.longitude) := by
  induction gs with
  | nil =>
    intro g hg
    simp only [insertReading, List.mem_singleton] at hg
    subst hg
    exact Or.inr ⟨rfl, rfl⟩
  | cons g0 gs ih =>
    intro g hg
    rw [insertReading] at hg
    split_ifs at hg with hd
    · rcases List.mem_cons.1 hg with rfl | hm
      · exact Or.inl ⟨g0, List.mem_cons_self g0 gs, rfl, rfl⟩
      · exact Or.inl ⟨g, List.mem_cons_of_mem _ hm, rfl, rfl⟩
    · rcases List.mem_cons.1 hg with rfl | hm
      · exact Or.inl ⟨g, List.mem_cons_self g gs, rfl, rfl⟩
      · rcases ih g hm with ⟨g1, hg1, he⟩ | he
        · exact Or.inl ⟨g1, List.mem_cons_of_mem _ hg1, he⟩
        · exact Or.inr he

/-- Inserting a reading preserves pairwise anchor separation: a new group is
created only when the reading is more than 5 meters from every existing
anchor, and anchors are never moved. -/
theorem insertReading_pairwise (r : Obj ReadingData) (gs : List LocationGroup)
    (h : List.Pairwise
      (fun g1 g2 => 5 < calculateDistance g2.latitude g2.longitude g1.latitude g1.longitude)
      gs) :
    List.Pairwise
      (fun g1 g2 => 5 < calculateDistance g2.latitude g2.longitude g1.latitude g1.longitude)
      (insertReading r gs) := by
  induction gs with
  | nil => simp [insertReading]
  | cons g0 gs ih =>
    rw [insertReading]
    rcases List.pairwise_cons.1 h with ⟨hg0, hgs⟩
    split_ifs with hd
    · exact List.pairwise_cons.2 ⟨fun g hg => hg0 g hg, hgs⟩
    · refine List.pairwise_cons.2 ⟨?_, ih hgs⟩
      intro g hg
      rcases insertReading_anchors r gs g hg with ⟨g1, hg1, hlat, hlon⟩ | ⟨hlat, hlon⟩
      · rw [hlat, hlon]
        exact hg0 g1 hg1
      · rw [hlat, hlon]
        exact lt_of_not_le hd

/-- The fold over all readings preserves pairwise anchor separation. -/
theorem foldl_insert_pairwise (rs : List (Obj ReadingData)) (gs : List LocationGroup)
    (h : List.Pairwise
      (fun g1 g2 => 5 < calculateDistance g2.latitude g2.longitude g1.latitude g1.longitude)
      gs) :
    List.Pairwise
      (fun g1 g2 => 5 < calculateDistance g2.latitude g2.longitude g1.latitude g1.longitude)
      (rs.foldl (fun acc r => insertReading r acc) gs) := by
  induction rs generalizing gs with
  | nil => simpa using h
  | cons r rs ih =>
    rw [List.foldl_cons]
    exact ih (insertReading r gs) (insertReading_pairwise r gs h)

/-- When a reading is farther than 5 meters from every existing anchor, the
scan appends a new group anchored at the reading's coordinates. -/
theorem insertReading_all_far (r : Obj ReadingData) (gs : List LocationGroup)
    (h : ∀ g ∈ gs,
      ¬ calculateDistance r.data.latitude r.data.longitude g.latitude g.longitude ≤ 5) :
    insertReading r gs = gs ++ [⟨r.data.latitude, r.data.longitude, [r]⟩] := by
  induction gs with
  | nil => simp [insertReading]
  | cons g0 gs ih =>
    rw [insertReading, if_neg (h g0 (List.mem_cons_self g0 gs)),
      ih (fun g hg => h g (List.mem_cons_of_mem _ hg))]
    simp

/-- The reading joins the first group (in creation order) whose anchor is
within 5 meters; groups after it are untouched. -/
theorem insertReading_first_fit (r : Obj ReadingData) (gs1 : List LocationGroup)
    (g : LocationGroup) (gs2 : List LocationGroup)
    (hfar : ∀ g' ∈ gs1,
      ¬ calculateDistance r.data.latitude r.data.longitude g'.latitude g'.longitude ≤ 5)
    (hnear : calculateDistance r.data.latitude r.data.longitude g.latitude g.longitude ≤ 5) :
    insertReading r (gs1 ++ g :: gs2) =
      gs1 ++ { g with readings := g.readings ++ [r] } :: gs2 := by
  induction gs1 with
  | nil =>
    rw [List.nil_append, List.nil_append, insertReading, if_pos hnear]
  | cons g0 gs1 ih =>
    rw [List.cons_append, insertReading, if_neg (hfar g0 (List.mem_cons_self g0 _)),
      ih (fun g' hg' => hfar g' (List.mem_cons_of_mem _ hg')), List.cons_append]

/-- The resolved time attached by `attachTs` is the validated date's time. -/
theorem vtime_attach {α : Type} (r : Obj α) (d : JSDate)
    (h : validateTimestamp r.timestamp = some d) : vtime (attachTs r) = d.time := by
  simp [vtime, attachTs, h]

/-- `filterValidReadings` on a two-element list whose two timestamps
validate in non-increasing time order keeps both, in order. -/
theorem filterValidReadings_pair (r1 r2 : Obj ReadingData) (d1 d2 : JSDate)
    (h1 : validateTimestamp r1.timestamp = some d1)
    (h2 : validateTimestamp r2.timestamp = some d2) (ht : d2.time ≤ d1.time) :
    filterValidReadings [r1, r2] = [attachTs r1, attachTs r2] := by
  unfold filterValidReadings
  have hf : [r1, r2].filter (fun r => (validateTimestamp r.timestamp).isSome) = [r1, r2] := by
    simp [List.filter, h1, h2]
  rw [hf]
  simp only [List.map]
  apply List.mergeSort_of_sorted
  refine List.pairwise_cons.2 ⟨?_, List.pairwise_singleton _ _⟩
  intro b hb
  rw [List.mem_singleton] at hb
  subst hb
  simp only [readingLe, vtime_attach r1 d1 h1, vtime_attach r2 d2 h2, decide_eq_true_eq]
  exact ht

/-- Attaching the resolved timestamp does not change the payload fields. -/
theorem attachTs_data {α : Type} (r : Obj α) : (attachTs r).data = r.data := rfl

/-- C10: any two distinct groups returned by `groupLocationsByProximity`
have anchors strictly more than 5 meters apart by haversine distance — a
new group is created only when the establishing reading is more than 5
meters from every existing anchor, and anchors are never recomputed. -/
theorem c10_anchor_separation (rs : List (Obj ReadingData)) :
    List.Pairwise
      (fun g1 g2 => 5 < calculateDistance g1.latitude g1.longitude g2.latitude g2.longitude)
      (groupLocationsByProximity rs) := by
  have h := foldl_insert_pairwise (filterValidReadings rs) [] List.Pairwise.nil
  have h2 : List.Pairwise
      (fun g1 g2 => 5 < calculateDistance g1.latitude g1.longitude g2.latitude g2.longitude)
      ((filterValidReadings rs).foldl (fun acc r => insertReading r acc) []) :=
    h.imp fun hab => by rwa [calculateDistance_symm] at hab
  simp only [groupLocationsByProximity]
  exact List.Pairwise.take h2

/-- C6: the grouping scans the validated, recency-first readings; every
returned group is anchored at its first reading's coordinates (anchors are
fixed at creation) and contains only readings within 5 meters of that
anchor; a reading joins the first group in creation order whose anchor is
within 5 meters, and otherwise founds a new group at its own coordinates;
for a pair of valid readings, a distance below 5 meters puts them in one
group and a distance of 50 meters or more puts them in two. -/
theorem c6_first_fit_grouping :
    (∀ rs : List (Obj ReadingData), ∀ g ∈ groupLocationsByProximity rs, groupOK g) ∧
    (∀ (r : Obj ReadingData) (gs : List LocationGroup),
      (∀ g ∈ gs,
        ¬ calculateDistance r.data.latitude r.data.longitude g.latitude g.longitude ≤ 5) →
      insertReading r gs = gs ++ [⟨r.data.latitude, r.data.longitude, [r]⟩]) ∧
    (∀ (r : Obj ReadingData) (gs1 : List LocationGroup) (g : LocationGroup)
        (gs2 : List LocationGroup),
      (∀ g' ∈ gs1,
        ¬ calculateDistance r.data.latitude r.data.longitude g'.latitude g'.longitude ≤ 5) →
      calculateDistance r.data.latitude r.data.longitude g.latitude g.longitude ≤ 5 →
      insertReading r (gs1 ++ g :: gs2) =
        gs1 ++ { g with readings := g.readings ++ [r] } :: gs2) ∧
    (∀ (r1 r2 : Obj ReadingData) (d1 d2 : JSDate),
      validateTimestamp r1.timestamp = some d1 → validateTimestamp r2.timestamp = some d2 →
      d2.time ≤ d1.time →
      calculateDistance r2.data.latitude r2.data.longitude
        r1.data.latitude r1.data.longitude < 5 →
      (groupLocationsByProximity [r1, r2]).length = 1) ∧
    (∀ (r1 r2 : Obj ReadingData) (d1 d2 : JSDate),
      validateTimestamp r1.timestamp = some d1 → validateTimestamp r2.timestamp = some d2 →
      d2.time ≤ d1.time →
      50 ≤ calculateDistance r2.data.latitude r2.data.longitude
        r1.data.latitude r1.data.longitude →
      (groupLocationsByProximity [r1, r2]).length = 2) := by
  refine ⟨?_, insertReading_all_far, insertReading_first_fit, ?_, ?_⟩
  · intro rs g hg
    simp only [groupLocationsByProximity] at hg
    exact foldl_insert_groupOK _ [] (by simp) g (List.mem_of_mem_take hg)
  · intro r1 r2 d1 d2 h1 h2 ht hd
    unfold groupLocationsByProximity
    rw [filterValidReadings_pair r1 r2 d1 d2 h1 h2 ht]
    simp only [List.foldl_cons, List.foldl_nil, insertReading, attachTs_data]
    rw [if_pos (le_of_lt hd)]
    rfl
  · intro r1 r2 d1 d2 h1 h2 ht hd
    unfold groupLocationsByProximity
    rw [filterValidReadings_pair r1 r2 d1 d2 h1 h2 ht]
    simp only [List.foldl_cons, List.foldl_nil, insertReading, attachTs_data]
    rw [if_neg (not_le.2 (lt_of_lt_of_le (by norm_num) hd))]
    rfl

/-- C6 witness: two readings at the same coordinates (haversine distance 0,
below 5 m) fall into one group; two readings one degree of latitude apart
(at least 50 m) fall into two. -/
theorem c6_witness :
    calculateDistance (mkReading 6.791164 79.900497 1).data.latitude
        (mkReading 6.791164 79.900497 1).data.longitude
        (mkReading 6.791164 79.900497 2).data.latitude
        (mkReading 6.791164 79.900497 2).data.longitude < 5 ∧
    (groupLocationsByProximity
        [mkReading 6.791164 79.900497 2, mkReading 6.791164 79.900497 1]).length = 1 ∧
    50 ≤ calculateDistance (mkReading 1 0 1).data.latitude (mkReading 1 0 1).data.longitude
        (mkReading 0 0 2).data.latitude (mkReading 0 0 2).data.longitude ∧
    (groupLocationsByProximity [mkReading 0 0 2, mkReading 1 0 1]).length = 2 := by
  have hclose : calculateDistance (mkReading 6.791164 79.900497 1).data.latitude
      (mkReading 6.791164 79.900497 1).data.longitude
      (mkReading 6.791164 79.900497 2).data.latitude
      (mkReading 6.791164 79.900497 2).data.longitude < 5 := by
    show calculateDistance (6.791164 : ℚ) 79.900497 6.791164 79.900497 < 5
    rw [calculateDistance_self]
    norm_num
  have hfar : 50 ≤ calculateDistance (mkReading 1 0 1).data.latitude
      (mkReading 1 0 1).data.longitude (mkReading 0 0 2).data.latitude
      (mkReading 0 0 2).data.longitude := by
    show (50 : ℝ) ≤ calculateDistance 1 0 0 0
    exact (calculateDistance_deg_far 0 1 0 (by norm_num) (by norm_num)).2.1
  exact ⟨hclose,
    c6_first_fit_grouping.2.2.2.1 (mkReading 6.791164 79.900497 2)
      (mkReading 6.791164 79.900497 1) ⟨2, 2025⟩ ⟨1, 2025⟩ rfl rfl (by decide) hclose,
    hfar,
    c6_first_fit_grouping.2.2.2.2 (mkReading 0 0 2) (mkReading 1 0 1)
      ⟨2, 2025⟩ ⟨1, 2025⟩ rfl rfl (by decide) hfar⟩

/-- `filterValidReadings` on a list of all-valid readings already in
descending time order just attaches the resolved timestamps. -/
theorem filterValidReadings_of_sorted {α : Type} (l : List (Obj α))
    (hv : ∀ r ∈ l, (validateTimestamp r.timestamp).isSome)
    (hs : List.Pairwise (fun a b => readingLe (attachTs a) (attachTs b) = true) l) :
    filterValidReadings l = l.map attachTs := by
  unfold filterValidReadings
  rw [List.filter_eq_self.2 hv]
  exact List.mergeSort_of_sorted (List.pairwise_map.2 hs)

/-- Scanning pairwise-far readings from a state whose anchors are all far
from every reading appends one new singleton group per reading, in order. -/
theorem foldl_insert_all_far (rs : List (Obj ReadingData)) (gs : List LocationGroup)
    (h1 : ∀ r ∈ rs, ∀ g ∈ gs,
      ¬ calculateDistance r.data.latitude r.data.longitude g.latitude g.longitude ≤ 5)
    (h2 : List.Pairwise (fun a b =>
      ¬ calculateDistance b.data.latitude b.data.longitude
        a.data.latitude a.data.longitude ≤ 5) rs) :
    rs.foldl (fun acc r => insertReading r acc) gs =
      gs ++ rs.map (fun r => ⟨r.data.latitude, r.data.longitude, [r]⟩) := by
  induction rs generalizing gs with
  | nil => simp
  | cons r rs ih =>
    rcases List.pairwise_cons.1 h2 with ⟨hr, htl⟩
    have hstep : ∀ r' ∈ rs, ∀ g ∈ gs ++ [⟨r.data.latitude, r.data.longitude, [r]⟩],
        ¬ calculateDistance r'.data.latitude r'.data.longitude
          g.latitude g.longitude ≤ 5 := by
      intro r' hr' g hg
      rcases List.mem_append.1 hg with hgs | hnew
      · exact h1 r' (List.mem_cons_of_mem _ hr') g hgs
      · rw [List.mem_singleton] at hnew
        subst hnew
        exact hr r' hr'
    rw [List.foldl_cons, insertReading_all_far r gs (h1 r (List.mem_cons_self r rs)),
      ih _ hstep htl]
    simp

/-- C7: the grouping never returns more than 5 groups; and in the scenario
of 7 valid readings at pairwise-far locations in strictly descending time
order, it returns exactly the 5 groups of the 5 most recent readings, one
reading each, with the 2 oldest readings excluded from every group. -/
theorem c7_group_bound_and_scenario :
    (∀ rs : List (Obj ReadingData), (groupLocationsByProximity rs).length ≤ 5) ∧
    (∀ (r1 r2 r3 r4 r5 r6 r7 : Obj ReadingData) (d1 d2 d3 d4 d5 d6 d7 : JSDate),
      validateTimestamp r1.timestamp = some d1 →
      validateTimestamp r2.timestamp = some d2 →
      validateTimestamp r3.timestamp = some d3 →
      validateTimestamp r4.timestamp = some d4 →
      validateTimestamp r5.timestamp = some d5 →
      validateTimestamp r6.timestamp = some d6 →
      validateTimestamp r7.timestamp = some d7 →
      d2.time < d1.time → d3.time < d2.time → d4.time < d3.time → d5.time < d4.time →
      d6.time < d5.time → d7.time < d6.time →
      List.Pairwise (fun a b => ¬ calculateDistance b.data.latitude b.data.longitude
        a.data.latitude a.data.longitude ≤ 5) [r1, r2, r3, r4, r5, r6, r7] →
      groupLocationsByProximity [r1, r2, r3, r4, r5, r6, r7] =
        [⟨r1.data.latitude, r1.data.longitude, [attachTs r1]⟩,
         ⟨r2.data.latitude, r2.data.longitude, [attachTs r2]⟩,
         ⟨r3.data.latitude, r3.data.longitude, [attachTs r3]⟩,
         ⟨r4.data.latitude, r4.data.longitude, [attachTs r4]⟩,
         ⟨r5.data.latitude, r5.data.longitude, [attachTs r5]⟩] ∧
      (∀ g ∈ groupLocationsByProximity [r1, r2, r3, r4, r5, r6, r7],
        g.readings.length = 1 ∧ attachTs r6 ∉ g.readings ∧ attachTs r7 ∉ g.readings)) := by
  constructor
  · intro rs
    simp only [groupLocationsByProximity]
    exact List.length_take_le 5 _
  · intro r1 r2 r3 r4 r5 r6 r7 d1 d2 d3 d4 d5 d6 d7 h1 h2 h3 h4 h5 h6 h7
      t12 t23 t34 t45 t56 t67 hsep
    have hle : ∀ (x y : Obj ReadingData) (dx dy : JSDate),
        validateTimestamp x.timestamp = some dx → validateTimestamp y.timestamp = some dy →
        dy.time ≤ dx.time → readingLe (attachTs x) (attachTs y) = true := by
      intro x y dx dy hx hy hxy
      simp only [readingLe, vtime_attach x dx hx, vtime_attach y dy hy, decide_eq_true_eq]
      exact hxy
    have hfilter : filterValidReadings [r1, r2, r3, r4, r5, r6, r7] =
        List.map attachTs [r1, r2, r3, r4, r5, r6, r7] := by
      apply filterValidReadings_of_sorted
      · intro r hr
        simp only [List.mem_cons, List.not_mem_nil, or_false] at hr
        rcases hr with rfl | rfl | rfl | rfl | rfl | rfl | rfl <;>
          simp [h1, h2, h3, h4, h5, h6, h7]
      · refine List.pairwise_cons.2 ⟨?_, List.pairwise_cons.2 ⟨?_, List.pairwise_cons.2
          ⟨?_, List.pairwise_cons.2 ⟨?_, List.pairwise_cons.2 ⟨?_, List.pairwise_cons.2
          ⟨?_, List.pairwise_singleton _ _⟩⟩⟩⟩⟩⟩ <;>
          intro b hb <;>
          simp only [List.mem_cons, List.not_mem_nil, or_false] at hb
        · rcases hb with hb | hb | hb | hb | hb | hb <;> rw [hb]
          exacts [hle r1 r2 d1 d2 h1 h2 (by omega), hle r1 r3 d1 d3 h1 h3 (by omega),
            hle r1 r4 d1 d4 h1 h4 (by omega), hle r1 r5 d1 d5 h1 h5 (by omega),
            hle r1 r6 d1 d6 h1 h6 (by omega), hle r1 r7 d1 d7 h1 h7 (by omega)]
        · rcases hb with hb | hb | hb | hb | hb <;> rw [hb]
          exacts [hle r2 r3 d2 d3 h2 h3 (by omega), hle r2 r4 d2 d4 h2 h4 (by omega),
            hle r2 r5 d2 d5 h2 h5 (by omega), hle r2 r6 d2 d6 h2 h6 (by omega),
            hle r2 r7 d2 d7 h2 h7 (by omega)]
        · rcases hb with hb | hb | hb | hb <;> rw [hb]
          exacts [hle r3 r4 d3 d4 h3 h4 (by omega), hle r3 r5 d3 d5 h3 h5 (by omega),
            hle r3 r6 d3 d6 h3 h6 (by omega), hle r3 r7 d3 d7 h3 h7 (by omega)]
        · rcases hb with hb | hb | hb <;> rw [hb]
          exacts [hle r4 r5 d4 d5 h4 h5 (by omega), hle r4 r6 d4 d6 h4 h6 (by omega),
            hle r4 r7 d4 d7 h4 h7 (by omega)]
        · rcases hb with hb | hb <;> rw [hb]
          exacts [hle r5 r6 d5 d6 h5 h6 (by omega), hle r5 r7 d5 d7 h5 h7 (by omega)]
        · rw [hb]
          exact hle r6 r7 d6 d7 h6 h7 (by omega)
    have hfold : ((List.map attachTs [r1, r2, r3, r4, r5, r6, r7]).foldl
        (fun acc r => insertReading r acc) []) =
        (List.map attachTs [r1, r2, r3, r4, r5, r6, r7]).map
          (fun r => ⟨r.data.latitude, r.data.longitude, [r]⟩) := by
      have hff := foldl_insert_all_far (List.map attachTs [r1, r2, r3, r4, r5, r6, r7]) []
        (by intro r hr g hg; simp at hg) (List.pairwise_map.2 hsep)
      simpa using hff
    have hgroups : groupLocationsByProximity [r1, r2, r3, r4, r5, r6, r7] =
        [⟨r1.data.latitude, r1.data.longitude, [attachTs r1]⟩,
         ⟨r2.data.latitude, r2.data.longitude, [attachTs r2]⟩,
         ⟨r3.data.latitude, r3.data.longitude, [attachTs r3]⟩,
         ⟨r4.data.latitude, r4.data.longitude, [attachTs r4]⟩,
         ⟨r5.data.latitude, r5.data.longitude, [attachTs r5]⟩] := by
      unfold groupLocationsByProximity
      rw [hfilter, hfold]
      rfl
    have hne : ∀ (x y : Obj ReadingData) (dx dy : JSDate),
        validateTimestamp x.timestamp = some dx → validateTimestamp y.timestamp = some dy →
        dx.time ≠ dy.time → attachTs x ≠ attachTs y := by
      intro x y dx dy hx hy hd heq
      exact hd (by rw [← vtime_attach x dx hx, ← vtime_attach y dy hy, heq])
    refine ⟨hgroups, ?_⟩
    intro g hg
    rw [hgroups] at hg
    simp only [List.mem_cons, List.not_mem_nil, or_false] at hg
    rcases hg with rfl | rfl | rfl | rfl | rfl <;>
      refine ⟨rfl, ?_, ?_⟩ <;> rw [List.mem_singleton]
    exacts [hne r6 r1 d6 d1 h6 h1 (by omega), hne r7 r1 d7 d1 h7 h1 (by omega),
      hne r6 r2 d6 d2 h6 h2 (by omega), hne r7 r2 d7 d2 h7 h2 (by omega),
      hne r6 r3 d6 d3 h6 h3 (by omega), hne r7 r3 d7 d3 h7 h3 (by omega),
      hne r6 r4 d6 d4 h6 h4 (by omega), hne r7 r4 d7 d4 h7 h4 (by omega),
      hne r6 r5 d6 d5 h6 h5 (by omega), hne r7 r5 d7 d5 h7 h5 (by omega)]

/-- C7 witness: seven readings one degree of latitude apart on a common
meridian, in strictly descending time order; the scenario conclusion of the
theorem applied there yields exactly the five groups of the five most
recent readings. -/
theorem c7_witness :
    validateTimestamp (mkReading 0 0 7).timestamp = some ⟨7, 2025⟩ ∧
    ¬ calculateDistance (mkReading 1 0 6).data.latitude (mkReading 1 0 6).data.longitude
        (mkReading 0 0 7).data.latitude (mkReading 0 0 7).data.longitude ≤ 5 ∧
    groupLocationsByProximity
        [mkReading 0 0 7, mkReading 1 0 6, mkReading 2 0 5, mkReading 3 0 4,
         mkReading 4 0 3, mkReading 5 0 2, mkReading 6 0 1] =
      [⟨0, 0, [attachTs (mkReading 0 0 7)]⟩, ⟨1, 0, [attachTs (mkReading 1 0 6)]⟩,
       ⟨2, 0, [attachTs (mkReading 2 0 5)]⟩, ⟨3, 0, [attachTs (mkReading 3 0 4)]⟩,
       ⟨4, 0, [attachTs (mkReading 4 0 3)]⟩] := by
  have far : ∀ p q : ℚ, 1 ≤ q - p → q - p ≤ 10 → ¬ calculateDistance q 0 p 0 ≤ 5 :=
    fun p q a b => not_le.2 (calculateDistance_deg_far p q 0 a b).2.2.2
  have hsep : List.Pairwise (fun a b : Obj ReadingData =>
      ¬ calculateDistance b.data.latitude b.data.longitude
        a.data.latitude a.data.longitude ≤ 5)
      [mkReading 0 0 7, mkReading 1 0 6, mkReading 2 0 5, mkReading 3 0 4,
       mkReading 4 0 3, mkReading 5 0 2, mkReading 6 0 1] := by
    refine List.pairwise_cons.2 ⟨?_, List.pairwise_cons.2 ⟨?_, List.pairwise_cons.2
      ⟨?_, List.pairwise_cons.2 ⟨?_, List.pairwise_cons.2 ⟨?_, List.pairwise_cons.2
      ⟨?_, List.pairwise_singleton _ _⟩⟩⟩⟩⟩⟩ <;>
      intro b hb <;>
      simp only [List.mem_cons, List.not_mem_nil, or_false] at hb
    · rcases hb with hb | hb | hb | hb | hb | hb <;> rw [hb]
      exacts [far 0 1 (by norm_num) (by norm_num), far 0 2 (by norm_num) (by norm_num),
        far 0 3 (by norm_num) (by norm_num), far 0 4 (by norm_num) (by norm_num),
        far 0 5 (by norm_num) (by norm_num), far 0 6 (by norm_num) (by norm_num)]
    · rcases hb with hb | hb | hb | hb | hb <;> rw [hb]
      exacts [far 1 2 (by norm_num) (by norm_num), far 1 3 (by norm_num) (by norm_num),
        far 1 4 (by norm_num) (by norm_num), far 1 5 (by norm_num) (by norm_num),
        far 1 6 (by norm_num) (by norm_num)]
    · rcases hb with hb | hb | hb | hb <;> rw [hb]
      exacts [far 2 3 (by norm_num) (by norm_num), far 2 4 (by norm_num) (by norm_num),
        far 2 5 (by norm_num) (by norm_num), far 2 6 (by norm_num) (by norm_num)]
    · rcases hb with hb | hb | hb <;> rw [hb]
      exacts [far 3 4 (by norm_num) (by norm_num), far 3 5 (by norm_num) (by norm_num),
        far 3 6 (by norm_num) (by norm_num)]
    · rcases hb with hb | hb <;> rw [hb]
      exacts [far 4 5 (by norm_num) (by norm_num), far 4 6 (by norm_num) (by norm_num)]
    · rw [hb]
      exact far 5 6 (by norm_num) (by norm_num)
  refine ⟨rfl, far 0 1 (by norm_num) (by norm_num), ?_⟩
  exact (c7_group_bound_and_scenario.2 (mkReading 0 0 7) (mkReading 1 0 6)
    (mkReading 2 0 5) (mkReading 3 0 4) (mkReading 4 0 3) (mkReading 5 0 2)
    (mkReading 6 0 1) ⟨7, 2025⟩ ⟨6, 2025⟩ ⟨5, 2025⟩ ⟨4, 2025⟩ ⟨3, 2025⟩ ⟨2, 2025⟩ ⟨1, 2025⟩
    rfl rfl rfl rfl rfl rfl rfl (by decide) (by decide) (by decide) (by decide) (by decide)
    (by decide) hsep).1

/-- C8: the snapshot handler leaves locationGroups, historyData, loading and
the selection state unchanged and, when the batch yields at least one valid
reading, replaces only `currentData` with the batch's head; history is
computed only on the fetch path, as items [1..6) of the processed list. -/
theorem c8_snapshot_frame (docs : List (Obj RawDoc)) (s : AppState) (r : Obj ReadingData)
    (rest : List (Obj ReadingData)) (h : processDocs docs = r :: rest) :
    (snapshotUpdate docs s).locationGroups = s.locationGroups ∧
    (snapshotUpdate docs s).historyData = s.historyData ∧
    (snapshotUpdate docs s).loading = s.loading ∧
    (snapshotUpdate docs s).selectedLocationGroup = s.selectedLocationGroup ∧
    (snapshotUpdate docs s).locationHistoryData = s.locationHistoryData ∧
    (snapshotUpdate docs s).currentData = some r ∧
    (∀ (now : JSDate) (docs2 : List (Obj RawDoc)),
      (fetchSuccess now docs2 s).historyData = ((processDocs docs2).drop 1).take 5) := by
  have hs : snapshotUpdate docs s = { s with currentData := some r } := by
    unfold snapshotUpdate
    rw [h]
  rw [hs]
  exact ⟨rfl, rfl, rfl, rfl, rfl, rfl, fun now docs2 => rfl⟩

/-- C8 witness: the frame theorem applied to a one-document batch and a
concrete prior state: only `currentData` changes. -/
theorem c8_witness :
    processDocs [rawEmptyDoc] = [toReading rawEmptyDoc ⟨1, 2025⟩] ∧
    (snapshotUpdate [rawEmptyDoc]
        ⟨none, [], true, [], none, []⟩).currentData = some (toReading rawEmptyDoc ⟨1, 2025⟩) ∧
    (snapshotUpdate [rawEmptyDoc] ⟨none, [], true, [], none, []⟩).loading = true ∧
    (snapshotUpdate [rawEmptyDoc] ⟨none, [], true, [], none, []⟩).locationGroups = [] := by
  have hp : processDocs [rawEmptyDoc] = [toReading rawEmptyDoc ⟨1, 2025⟩] := by
    simp [processDocs, rawEmptyDoc, validateTimestamp, List.filterMap,
      List.mergeSort_singleton]
  refine ⟨hp, (c8_snapshot_frame [rawEmptyDoc] _ _ [] hp).2.2.2.2.2.1, ?_, ?_⟩
  · rw [(c8_snapshot_frame [rawEmptyDoc] ⟨none, [], true, [], none, []⟩ _ [] hp).2.2.1]
  · rw [(c8_snapshot_frame [rawEmptyDoc] ⟨none, [], true, [], none, []⟩ _ [] hp).1]

/-- C9: both the error path and the zero-valid-readings path of `fetchData`
set `currentData` to the hardcoded fallback reading (whose fields are the
documented constants and whose aqi is computed from pm25 = 40, giving 112),
and `loading` becomes false on every terminal path. -/
theorem c9_fallback_and_loading (now : JSDate) (docs : List (Obj RawDoc)) (s : AppState)
    (h : processDocs docs = []) :
    (fetchError now s).currentData = some (fallbackReading now) ∧
    (fetchError now s).loading = false ∧
    (fetchSuccess now docs s).currentData = some (fallbackReading now) ∧
    (fetchSuccess now docs s).loading = false ∧
    (∀ docs2 : List (Obj RawDoc), (fetchSuccess now docs2 s).loading = false) ∧
    (fallbackReading now).data.latitude = 6.791164 ∧
    (fallbackReading now).data.longitude = 79.900497 ∧
    (fallbackReading now).data.temperature = 30 ∧
    (fallbackReading now).data.humidity = 80 ∧
    (fallbackReading now).data.voc = 140 ∧
    (fallbackReading now).data.pm25 = 40 ∧
    (fallbackReading now).data.pm10 = 0 ∧
    (fallbackReading now).data.pm1 = 0 ∧
    (fallbackReading now).data.rainfall = 0 ∧
    (fallbackReading now).data.windSpeed = 0 ∧
    (fallbackReading now).data.windDirection = ("N") ∧
    (fallbackReading now).data.co2 = 0 ∧
    (fallbackReading now).data.deviceId = ("") ∧
    (fallbackReading now).data.aqi = calculateAQI 0 40 0 ∧
    calculateAQI 0 40 0 = 112 ∧
    (fallbackReading now).validTimestamp = some now := by
  refine ⟨rfl, rfl, ?_, rfl, fun docs2 => rfl, rfl, rfl, rfl, rfl, rfl, rfl, rfl, rfl, rfl,
    rfl, rfl, rfl, rfl, rfl, ?_, rfl⟩
  · simp only [fetchSuccess, h]
  · norm_num [calculateAQI, jround]

/-- C9 witness: the fallback theorem applied to an empty fetched batch and a
concrete prior state. -/
theorem c9_witness :
    processDocs ([] : List (Obj RawDoc)) = [] ∧
    (fetchSuccess ⟨0, 2025⟩ [] ⟨none, [], true, [], none, []⟩).currentData =
      some (fallbackReading ⟨0, 2025⟩) ∧
    (fetchSuccess ⟨0, 2025⟩ [] ⟨none, [], true, [], none, []⟩).loading = false := by
  have hp : processDocs ([] : List (Obj RawDoc)) = [] := by
    simp [processDocs]
  exact ⟨hp, (c9_fallback_and_loading ⟨0, 2025⟩ [] _ hp).2.2.1,
    (c9_fallback_and_loading ⟨0, 2025⟩ [] ⟨none, [], true, [], none, []⟩ hp).2.2.2.1⟩

end AirAware
